import Mathlib

/-!
# Account REST service — verification of the CRUD contract

A shallow embedding of the account microservice: the route handlers of
`service/routes.py` are translated into pure Lean functions over an explicit
store of account rows.  The `Account` entity class (`service/models.py`) is
not part of the sources, so its serialize/deserialize/CRUD behaviour is
modelled from the specification's data-model and serialization contract.
-/

namespace AccountService

/-- JSON values, the wire representation of request and response bodies. -/
inductive Json where
  | null : Json
  | str (s : String) : Json
  | num (n : Int) : Json
  | bool (b : Bool) : Json
  | arr (elems : List Json) : Json
  | obj (fields : List (String × Json)) : Json
  deriving Repr

/-- Key lookup in a JSON object's field list (Python `dict.get` / `dict[k]`):
first binding of the key, `none` when absent. -/
def jget : List (String × Json) → String → Option Json
  | [], _ => none
  | (k, v) :: rest, key => if k = key then some v else jget rest key

/-- Modelled from the spec: the data attributes of the missing `Account`
entity class (`service/models.py`).  `name`, `email`, `address` are required;
`phone_number` is optional (`null` when absent); `date_joined` defaults to
the creation date when not supplied.  Field values are kept as the JSON
values taken from the payload. -/
structure AccountData where
  name : Json
  email : Json
  address : Json
  phone_number : Json
  date_joined : Json
  deriving Repr

namespace Account

/-- Modelled from the spec: `Account.deserialize` of the missing
`service/models.py` — "mapping → object, raising a validation failure if a
required key is absent or the payload is not a JSON object".  Optional
`phone_number` becomes `null` when absent; `date_joined` defaults to the
current date (`today`, passed explicitly) when not supplied. -/
def deserialize (payload : Json) (today : String) : Except String AccountData :=
  match payload with
  | Json.obj kvs =>
    match jget kvs "name" with
    | none => Except.error "Invalid Account: missing name"
    | some n =>
      match jget kvs "email" with
      | none => Except.error "Invalid Account: missing email"
      | some e =>
        match jget kvs "address" with
        | none => Except.error "Invalid Account: missing address"
        | some a =>
          Except.ok
            { name := n
              email := e
              address := a
              phone_number := (jget kvs "phone_number").getD Json.null
              date_joined :=
                match jget kvs "date_joined" with
                | some Json.null => Json.str today
                | none => Json.str today
                | some v => v }
  | _ => Except.error "Invalid Account: body of request contained bad or no data"

/-- Modelled from the spec: `Account.serialize` of the missing
`service/models.py` — "object → mapping with keys
`id, name, email, address, phone_number, date_joined`". -/
def serialize (id : Nat) (d : AccountData) : Json :=
  Json.obj
    [ ("id", Json.num (Int.ofNat id))
    , ("name", d.name)
    , ("email", d.email)
    , ("address", d.address)
    , ("phone_number", d.phone_number)
    , ("date_joined", d.date_joined) ]

end Account

/-- The persisted state: account rows keyed by `id`, plus the
auto-incrementing id counter of the relational store. -/
structure Store where
  rows : List (Nat × AccountData)
  nextId : Nat
  deriving Repr

/-- The empty store. -/
def emptyStore : Store := { rows := [], nextId := 0 }

/-- First row with the given id, if any. -/
def findRow : List (Nat × AccountData) → Nat → Option AccountData
  | [], _ => none
  | r :: rest, id => if r.1 = id then some r.2 else findRow rest id

/-- Remove the first row with the given id (the row object deleted by
`account.delete()`). -/
def eraseRow : List (Nat × AccountData) → Nat → List (Nat × AccountData)
  | [], _ => []
  | r :: rest, id => if r.1 = id then rest else r :: eraseRow rest id

/-- Replace the data of the row(s) with the given id (the commit performed
by `account.update()`; ids are unique in any reachable store). -/
def updateRows : List (Nat × AccountData) → Nat → AccountData → List (Nat × AccountData)
  | [], _, _ => []
  | r :: rest, id, d =>
    if r.1 = id then (r.1, d) :: updateRows rest id d
    else r :: updateRows rest id d

/-- Modelled from the spec: `Account.find` — query-by-id in the persistence
layer of the missing `service/models.py`. -/
def Store.find (s : Store) (id : Nat) : Option AccountData :=
  findRow s.rows id

/-- Modelled from the spec: `Account.create` — insert with a server-assigned
auto-incrementing id. -/
def Store.create (s : Store) (d : AccountData) : Nat × Store :=
  (s.nextId, { rows := s.rows ++ [(s.nextId, d)], nextId := s.nextId + 1 })

/-- Modelled from the spec: `Account.update` — persist the mutated fields of
the row under its unchanged id. -/
def Store.update (s : Store) (id : Nat) (d : AccountData) : Store :=
  { s with rows := updateRows s.rows id d }

/-- Modelled from the spec: `account.delete()` — remove the found row. -/
def Store.delete (s : Store) (id : Nat) : Store :=
  { s with rows := eraseRow s.rows id }

/-- Modelled from the spec: `Account.all` — query-all, the rows in store
order. -/
def Store.all (s : Store) : List (Nat × AccountData) :=
  s.rows

/-- Response bodies: a JSON document or plain text (`make_response("", 204)`
returns a text body). -/
inductive Body where
  | jsonB (j : Json) : Body
  | textB (s : String) : Body
  deriving Repr

/-- An HTTP response: status code, body, and the optional `Location` header. -/
structure Response where
  status : Nat
  body : Body
  location : Option String
  deriving Repr

/-- `check_content_type` of `routes.py`: the request's Content-Type header
must be truthy and equal to the expected media type; otherwise the request
is aborted with 415. -/
def check_content_type (contentType : Option String) (mediaType : String) : Bool :=
  match contentType with
  | some c => !c.isEmpty && c = mediaType
  | none => false

/-- Modelled from the spec: the 415 error response produced by the framework
error handler (in `service/common`, not in the sources) for
`abort(415, "Content-Type must be application/json")`. -/
def unsupportedMediaTypeResponse : Response :=
  { status := 415
    body := Body.jsonB (Json.obj
      [ ("error", Json.str "Unsupported media type")
      , ("message", Json.str "Content-Type must be application/json") ])
    location := none }

/-- Modelled from the spec: the 400 error response produced by the framework
error handler (in `service/common`, not in the sources) when
`Account.deserialize` raises a validation failure — "this failure must
surface as HTTP 400". -/
def badRequestResponse (msg : String) : Response :=
  { status := 400
    body := Body.jsonB (Json.obj
      [ ("error", Json.str "Bad Request"), ("message", Json.str msg) ])
    location := none }

/-- The 404 response of `get_account`/`update_account`:
`jsonify({"error": "Account not found"}), 404`. -/
def notFoundResponse : Response :=
  { status := 404
    body := Body.jsonB (Json.obj [("error", Json.str "Account not found")])
    location := none }

/-- `create_accounts` of `routes.py`: check the content type, deserialize
the posted body, create the account, and answer 201 with the serialized
account and a `Location` header of `"/"`. -/
def create_accounts (contentType : Option String) (body : Json) (today : String)
    (s : Store) : Response × Store :=
  if check_content_type contentType "application/json" then
    match Account.deserialize body today with
    | Except.ok d =>
      let (id, s') := s.create d
      ({ status := 201
         body := Body.jsonB (Account.serialize id d)
         location := some "/" }, s')
    | Except.error msg => (badRequestResponse msg, s)
  else
    (unsupportedMediaTypeResponse, s)

/-- `get_all_accounts_route` of `routes.py`: serialize every account and
answer 200 with the JSON array. -/
def get_all_accounts_route (s : Store) : Response :=
  { status := 200
    body := Body.jsonB (Json.arr (s.all.map fun r => Account.serialize r.1 r.2))
    location := none }

/-- `get_account` of `routes.py`: find by id; 404 with
`{"error": "Account not found"}` when absent, else 200 with the serialized
account. -/
def get_account (account_id : Nat) (s : Store) : Response :=
  match s.find account_id with
  | none => notFoundResponse
  | some d =>
    { status := 200, body := Body.jsonB (Account.serialize account_id d), location := none }

/-- `update_account` of `routes.py`: find by id (404 when absent), then
deserialize the request body into the account and persist it, answering 200
with the updated serialized account.  The handler never consults the
Content-Type header (`contentType` is received but unread, mirroring the
absence of a `check_content_type` call). -/
def update_account (contentType : Option String) (account_id : Nat) (body : Json)
    (today : String) (s : Store) : Response × Store :=
  match s.find account_id with
  | none => (notFoundResponse, s)
  | some _ =>
    match Account.deserialize body today with
    | Except.ok d =>
      ({ status := 200, body := Body.jsonB (Account.serialize account_id d), location := none },
       s.update account_id d)
    | Except.error msg => (badRequestResponse msg, s)

/-- `delete_account` of `routes.py`: find by id, delete when present, and
always answer 204 with an empty body. -/
def delete_account (account_id : Nat) (s : Store) : Response × Store :=
  let s' :=
    match s.find account_id with
    | some _ => s.delete account_id
    | none => s
  ({ status := 204, body := Body.textB "", location := none }, s')

/-- A sequence of create requests (each a payload with its request date),
applied in order: the states reachable by creating N accounts. -/
def createMany (payloads : List (Json × String)) (s : Store) : Store :=
  payloads.foldl
    (fun st pb => (create_accounts (some "application/json") pb.1 pb.2 st).2) s

/-- Store well-formedness: every persisted id is below the auto-increment
counter (so a freshly assigned id is new).  Holds of every reachable store. -/
def Store.WF (s : Store) : Prop :=
  ∀ r ∈ s.rows, r.1 < s.nextId

end AccountService

namespace AccountService

/-! ## Helper lemmas -/

/-- The exact media type passes the content-type guard. -/
theorem check_content_type_json :
    check_content_type (some "application/json") "application/json" = true := by
  decide

/-- A fresh id (above every persisted id) finds the row appended for it. -/
theorem findRow_append_fresh (rows : List (Nat × AccountData)) (n : Nat) (d : AccountData)
    (h : ∀ r ∈ rows, r.1 < n) :
    findRow (rows ++ [(n, d)]) n = some d := by
  induction rows with
  | nil => simp [findRow]
  | cons r rest ih =>
    have hr : r.1 ≠ n := Nat.ne_of_lt (h r (by simp))
    simp only [List.cons_append, findRow, if_neg hr]
    exact ih fun r' hr' => h r' (by simp [hr'])

/-- An id absent from the rows is not found. -/
theorem findRow_eq_none (rows : List (Nat × AccountData)) (id : Nat)
    (h : id ∉ rows.map Prod.fst) : findRow rows id = none := by
  induction rows with
  | nil => rfl
  | cons r rest ih =>
    rw [List.map_cons, List.mem_cons] at h
    push_neg at h
    have hr : r.1 ≠ id := fun hh => h.1 hh.symm
    simp only [findRow, if_neg hr]
    exact ih h.2

/-- With pairwise-distinct ids, erasing an id makes it unfindable. -/
theorem findRow_eraseRow_self (rows : List (Nat × AccountData)) (id : Nat)
    (hnd : (rows.map Prod.fst).Nodup) :
    findRow (eraseRow rows id) id = none := by
  induction rows with
  | nil => rfl
  | cons r rest ih =>
    rw [List.map_cons, List.nodup_cons] at hnd
    by_cases hr : r.1 = id
    · simp only [eraseRow, if_pos hr]
      exact findRow_eq_none rest id (hr ▸ hnd.1)
    · simp only [eraseRow, if_neg hr, findRow]
      exact ih hnd.2

/-- Updating an id rebinds it to the new data when it was present. -/
theorem findRow_updateRows_self (rows : List (Nat × AccountData)) (id : Nat)
    (d0 d : AccountData) (h : findRow rows id = some d0) :
    findRow (updateRows rows id d) id = some d := by
  induction rows with
  | nil => exact absurd h (by simp [findRow])
  | cons r rest ih =>
    by_cases hr : r.1 = id
    · simp only [updateRows, if_pos hr, findRow, if_pos hr]
    · simp only [findRow, if_neg hr] at h
      simp only [updateRows, if_neg hr, findRow, if_neg hr]
      exact ih h

/-- Updating one id leaves every other id bound as before. -/
theorem findRow_updateRows_other (rows : List (Nat × AccountData)) (id j : Nat)
    (d : AccountData) (hj : j ≠ id) :
    findRow (updateRows rows id d) j = findRow rows j := by
  induction rows with
  | nil => rfl
  | cons r rest ih =>
    by_cases hr : r.1 = id
    · have hrj : r.1 ≠ j := fun hh => hj (hh.symm.trans hr)
      simp only [updateRows, if_pos hr, findRow, if_neg hrj]
      exact ih
    · by_cases hrj : r.1 = j
      · simp only [updateRows, if_neg hr, findRow, if_pos hrj]
      · simp only [updateRows, if_neg hr, findRow, if_neg hrj]
        exact ih

/-- A successful create appends exactly one row. -/
theorem create_accounts_ok_state (body : Json) (today : String) (s : Store)
    (d : AccountData) (hds : Account.deserialize body today = Except.ok d) :
    create_accounts (some "application/json") body today s =
      ({ status := 201, body := Body.jsonB (Account.serialize s.nextId d),
         location := some "/" },
       { rows := s.rows ++ [(s.nextId, d)], nextId := s.nextId + 1 }) := by
  simp [create_accounts, check_content_type_json, hds, Store.create]

end AccountService

namespace AccountService

/-! ## Concrete fixtures -/

/-- A sample persisted account. -/
def cexAccount : AccountData :=
  { name := Json.str "Alice"
    email := Json.str "a@x.com"
    address := Json.str "1 Main St"
    phone_number := Json.str "555-1111"
    date_joined := Json.str "2026-01-01" }

/-- A store holding the sample account under id 1. -/
def cexStore : Store := { rows := [(1, cexAccount)], nextId := 2 }

/-- A valid payload supplying only the three required fields. -/
def requiredOnlyBody : Json :=
  Json.obj
    [ ("name", Json.str "Alice")
    , ("email", Json.str "a@x.com")
    , ("address", Json.str "1 Main St") ]

/-! ## Claims -/

/-- C1: a valid create payload (a JSON object with name, email and address)
posted as application/json yields 201 with a Location header and a body
whose fields equal the submitted fields, and a subsequent read by the
returned id yields an identical representation. -/
theorem create_round_trip (kvs : List (String × Json)) (n e a : Json) (today : String)
    (s : Store) (hwf : s.WF)
    (hn : jget kvs "name" = some n) (he : jget kvs "email" = some e)
    (ha : jget kvs "address" = some a) :
    ∃ d : AccountData,
      Account.deserialize (Json.obj kvs) today = Except.ok d ∧
      d.name = n ∧ d.email = e ∧ d.address = a ∧
      (∀ p, jget kvs "phone_number" = some p → d.phone_number = p) ∧
      create_accounts (some "application/json") (Json.obj kvs) today s =
        ({ status := 201, body := Body.jsonB (Account.serialize s.nextId d),
           location := some "/" },
         { rows := s.rows ++ [(s.nextId, d)], nextId := s.nextId + 1 }) ∧
      get_account s.nextId (create_accounts (some "application/json") (Json.obj kvs) today s).2 =
        { status := 200, body := Body.jsonB (Account.serialize s.nextId d),
          location := none } := by
  have hex : ∃ d, Account.deserialize (Json.obj kvs) today = Except.ok d ∧ d.name = n ∧
      d.email = e ∧ d.address = a ∧
      (∀ p, jget kvs "phone_number" = some p → d.phone_number = p) := by
    simp only [Account.deserialize, hn, he, ha]
    exact ⟨_, rfl, rfl, rfl, rfl, fun p hp => by simp [hp]⟩
  obtain ⟨d, hds, hdn, hde, hda, hdp⟩ := hex
  have hcr := create_accounts_ok_state (Json.obj kvs) today s d hds
  refine ⟨d, hds, hdn, hde, hda, hdp, hcr, ?_⟩
  rw [hcr]
  simp only [get_account, Store.find]
  rw [findRow_append_fresh s.rows s.nextId d hwf]

/-- C1 witness: the round-trip theorem applied to a concrete payload on the
empty store. -/
theorem create_round_trip_witness :
    (create_accounts (some "application/json") requiredOnlyBody
      "2026-10-12" emptyStore).1.status = 201 := by
  obtain ⟨d, -, -, -, -, -, hcr, -⟩ :=
    create_round_trip
      [ ("name", Json.str "Alice"), ("email", Json.str "a@x.com")
      , ("address", Json.str "1 Main St") ]
      (Json.str "Alice") (Json.str "a@x.com") (Json.str "1 Main St")
      "2026-10-12" emptyStore (by intro r hr; simp [emptyStore] at hr) rfl rfl rfl
  rw [show requiredOnlyBody = Json.obj
      [ ("name", Json.str "Alice"), ("email", Json.str "a@x.com")
      , ("address", Json.str "1 Main St") ] from rfl, hcr]

/-- C3: delete answers 204 with an empty body for every id, and on an absent
id it is a pure no-op: the store is returned unchanged. -/
theorem delete_always_204_noop (account_id : Nat) (s : Store) :
    (delete_account account_id s).1 =
      { status := 204, body := Body.textB "", location := none } ∧
    (s.find account_id = none →
      delete_account account_id s =
        ({ status := 204, body := Body.textB "", location := none }, s)) := by
  refine ⟨rfl, fun h => ?_⟩
  simp [delete_account, h]

/-- C3 witness: deleting the absent id 7 from the empty store answers 204
with an empty body and leaves the store untouched. -/
theorem delete_always_204_noop_witness :
    delete_account 7 emptyStore =
      ({ status := 204, body := Body.textB "", location := none }, emptyStore) :=
  (delete_always_204_noop 7 emptyStore).2 rfl

/-- C4: a create whose Content-Type is not exactly application/json
(including a missing header) answers 415 with the store unchanged, and the
response does not depend on the request body. -/
theorem create_wrong_media_type_415 (ct : Option String) (body other : Json)
    (today today' : String) (s : Store) (h : ct ≠ some "application/json") :
    create_accounts ct body today s = (unsupportedMediaTypeResponse, s) ∧
    create_accounts ct body today s = create_accounts ct other today' s := by
  have hc : check_content_type ct "application/json" = false := by
    cases ct with
    | none => rfl
    | some c =>
      have hcne : c ≠ "application/json" := fun hh => h (by rw [hh])
      simp [check_content_type, hcne]
  constructor <;> simp [create_accounts, hc]

/-- C4 witness: posting a valid body as test/html is rejected with 415 and
the empty store is unchanged. -/
theorem create_wrong_media_type_415_witness :
    create_accounts (some "test/html") requiredOnlyBody "2026-10-12" emptyStore =
      (unsupportedMediaTypeResponse, emptyStore) :=
  (create_wrong_media_type_415 (some "test/html") requiredOnlyBody Json.null
    "2026-10-12" "2026-10-12" emptyStore (by decide)).1

/-- C9: whenever create succeeds (status 201), the Location header is the
constant string "/" — it never mentions the created id. -/
theorem create_location_is_root (ct : Option String) (body : Json) (today : String)
    (s : Store) (h : (create_accounts ct body today s).1.status = 201) :
    (create_accounts ct body today s).1.location = some "/" := by
  cases hc : check_content_type ct "application/json" with
  | false =>
    exfalso
    simp [create_accounts, hc, unsupportedMediaTypeResponse] at h
  | true =>
    cases hds : Account.deserialize body today with
    | ok d => simp [create_accounts, hc, hds, Store.create]
    | error m =>
      exfalso
      simp [create_accounts, hc, hds, badRequestResponse] at h

/-- C9 witness: a concrete successful create carries Location "/". -/
theorem create_location_is_root_witness :
    (create_accounts (some "application/json") requiredOnlyBody
      "2026-10-12" emptyStore).1.location = some "/" :=
  create_location_is_root (some "application/json") requiredOnlyBody
    "2026-10-12" emptyStore rfl

end AccountService

namespace AccountService

/-- C2 counterexample: on the store holding account 1, a PUT whose body is
the empty JSON object answers 400, not 200, although the id exists. -/
theorem put_existing_returns_200_false :
    cexStore.find 1 = some cexAccount ∧
    (update_account (some "application/json") 1 (Json.obj []) "2026-10-12" cexStore).1.status
      = 400 ∧
    ¬ (update_account (some "application/json") 1 (Json.obj []) "2026-10-12" cexStore).1.status
      = 200 :=
  ⟨rfl, rfl, by decide⟩

/-- C2 (amended): on an unknown id both GET and PUT answer 404 with
the error body (PUT leaving the store unchanged); on an existing id GET
answers 200 with the serialized account, and PUT answers 200 with the
updated serialized account whenever the body deserializes successfully. -/
theorem get_update_contract (ct : Option String) (account_id : Nat) (body : Json)
    (today : String) (s : Store) :
    (s.find account_id = none →
      get_account account_id s = notFoundResponse ∧
      update_account ct account_id body today s = (notFoundResponse, s)) ∧
    (∀ d0, s.find account_id = some d0 →
      get_account account_id s =
        { status := 200, body := Body.jsonB (Account.serialize account_id d0),
          location := none } ∧
      ∀ d, Account.deserialize body today = Except.ok d →
        (update_account ct account_id body today s).1 =
          { status := 200, body := Body.jsonB (Account.serialize account_id d),
            location := none }) := by
  constructor
  · intro h
    exact ⟨by simp [get_account, h], by simp [update_account, h]⟩
  · intro d0 h
    refine ⟨by simp [get_account, h], fun d hds => ?_⟩
    simp [update_account, h, hds]

/-- C2 witness: GET answers 200 on the existing id 1 and 404 on the unknown
id 999999 in the sample store. -/
theorem get_update_contract_witness :
    get_account 1 cexStore =
      { status := 200, body := Body.jsonB (Account.serialize 1 cexAccount),
        location := none } ∧
    get_account 999999 cexStore = notFoundResponse :=
  ⟨((get_update_contract (some "application/json") 1 (Json.obj []) "2026-10-12"
      cexStore).2 cexAccount rfl).1,
   ((get_update_contract (some "application/json") 999999 (Json.obj []) "2026-10-12"
      cexStore).1 rfl).1⟩

/-- C5: an application/json create whose body is not a JSON object, or lacks
one of the required keys name, email, address, answers 400 and leaves the
store unchanged. -/
theorem create_invalid_payload_400 (body : Json) (today : String) (s : Store)
    (h : ∀ kvs, body = Json.obj kvs →
      jget kvs "name" = none ∨ jget kvs "email" = none ∨ jget kvs "address" = none) :
    (create_accounts (some "application/json") body today s).1.status = 400 ∧
    (create_accounts (some "application/json") body today s).2 = s := by
  have herr : ∃ msg, Account.deserialize body today = Except.error msg := by
    cases body with
    | obj kvs =>
      cases hjn : jget kvs "name" with
      | none =>
        exact ⟨"Invalid Account: missing name", by simp [Account.deserialize, hjn]⟩
      | some n =>
        cases hje : jget kvs "email" with
        | none =>
          exact ⟨"Invalid Account: missing email", by simp [Account.deserialize, hjn, hje]⟩
        | some e =>
          cases hja : jget kvs "address" with
          | none =>
            exact ⟨"Invalid Account: missing address",
              by simp [Account.deserialize, hjn, hje, hja]⟩
          | some a => rcases h kvs rfl with h1 | h1 | h1 <;> simp_all
    | null => exact ⟨_, rfl⟩
    | str v => exact ⟨_, rfl⟩
    | num v => exact ⟨_, rfl⟩
    | bool v => exact ⟨_, rfl⟩
    | arr v => exact ⟨_, rfl⟩
  obtain ⟨msg, herr⟩ := herr
  constructor <;> simp [create_accounts, check_content_type_json, herr, badRequestResponse]

/-- C5 witness: a payload carrying only a name answers 400 on the empty
store and leaves it unchanged. -/
theorem create_invalid_payload_400_witness :
    (create_accounts (some "application/json") (Json.obj [("name", Json.str "x")])
      "2026-10-12" emptyStore).1.status = 400 ∧
    (create_accounts (some "application/json") (Json.obj [("name", Json.str "x")])
      "2026-10-12" emptyStore).2 = emptyStore :=
  create_invalid_payload_400 (Json.obj [("name", Json.str "x")]) "2026-10-12" emptyStore
    (by intro kvs hk; injection hk with h2; subst h2; exact Or.inr (Or.inl rfl))

/-- Each successful create grows the row list by exactly one. -/
theorem createMany_rows_length (ps : List (Json × String)) :
    ∀ s : Store, (∀ p ∈ ps, ∃ d, Account.deserialize p.1 p.2 = Except.ok d) →
      (createMany ps s).rows.length = s.rows.length + ps.length := by
  induction ps with
  | nil => intro s _; simp [createMany]
  | cons p rest ih =>
    intro s hok
    obtain ⟨d, hd⟩ := hok p (by simp)
    have h1 : createMany (p :: rest) s =
        createMany rest { rows := s.rows ++ [(s.nextId, d)], nextId := s.nextId + 1 } := by
      show createMany rest (create_accounts (some "application/json") p.1 p.2 s).2 =
        createMany rest { rows := s.rows ++ [(s.nextId, d)], nextId := s.nextId + 1 }
      rw [create_accounts_ok_state p.1 p.2 s d hd]
    rw [h1, ih { rows := s.rows ++ [(s.nextId, d)], nextId := s.nextId + 1 }
      (fun q hq => hok q (List.mem_cons_of_mem p hq))]
    simp only [List.length_append, List.length_cons, List.length_nil]
    omega

/-- C6: after creating N accounts from the empty store, list-all answers 200
with a JSON array of exactly N entries, each carrying the six serialized
keys; on the empty store the array is empty. -/
theorem list_after_creates (ps : List (Json × String))
    (hok : ∀ p ∈ ps, ∃ d, Account.deserialize p.1 p.2 = Except.ok d) :
    (get_all_accounts_route emptyStore).body = Body.jsonB (Json.arr []) ∧
    (get_all_accounts_route (createMany ps emptyStore)).status = 200 ∧
    ∃ entries : List Json,
      (get_all_accounts_route (createMany ps emptyStore)).body =
        Body.jsonB (Json.arr entries) ∧
      entries.length = ps.length ∧
      ∀ j ∈ entries, ∃ kvs, j = Json.obj kvs ∧
        (jget kvs "id").isSome ∧ (jget kvs "name").isSome ∧
        (jget kvs "email").isSome ∧ (jget kvs "address").isSome ∧
        (jget kvs "phone_number").isSome ∧ (jget kvs "date_joined").isSome := by
  refine ⟨rfl, rfl, ⟨_, rfl, ?_, ?_⟩⟩
  · rw [List.length_map]
    have hlen := createMany_rows_length ps emptyStore hok
    simpa [Store.all, emptyStore] using hlen
  · intro j hj
    rw [List.mem_map] at hj
    obtain ⟨r, hr, rfl⟩ := hj
    exact ⟨_, rfl, rfl, rfl, rfl, rfl, rfl, rfl⟩

/-- C6 witness: one successful create from the empty store lists as exactly
one entry. -/
theorem list_after_creates_witness :
    (get_all_accounts_route (createMany [(requiredOnlyBody, "2026-10-12")] emptyStore)).status
      = 200 ∧
    ∃ entries : List Json,
      (get_all_accounts_route (createMany [(requiredOnlyBody, "2026-10-12")] emptyStore)).body
        = Body.jsonB (Json.arr entries) ∧ entries.length = 1 := by
  obtain ⟨-, h200, entries, hbody, hlen, -⟩ :=
    list_after_creates [(requiredOnlyBody, "2026-10-12")]
      (by intro p hp
          rw [List.mem_singleton] at hp
          subst hp
          exact ⟨_, rfl⟩)
  exact ⟨h200, entries, hbody, hlen⟩

/-- C7: deleting an existing id answers 204 with an empty body and removes
the row, so a subsequent read of that id answers 404. -/
theorem delete_then_get_404 (account_id : Nat) (s : Store)
    (hnd : (s.rows.map Prod.fst).Nodup) (hex : (s.find account_id).isSome) :
    (delete_account account_id s).1 =
      { status := 204, body := Body.textB "", location := none } ∧
    get_account account_id (delete_account account_id s).2 = notFoundResponse := by
  obtain ⟨d0, hd0⟩ := Option.isSome_iff_exists.mp hex
  refine ⟨rfl, ?_⟩
  have hstate : (delete_account account_id s).2 = s.delete account_id := by
    simp [delete_account, hd0]
  rw [hstate]
  simp only [get_account, Store.delete, Store.find]
  rw [findRow_eraseRow_self s.rows account_id hnd]

/-- C7 witness: deleting the existing id 1 of the sample store answers 204
and the follow-up read answers 404. -/
theorem delete_then_get_404_witness :
    (delete_account 1 cexStore).1.status = 204 ∧
    get_account 1 (delete_account 1 cexStore).2 = notFoundResponse := by
  obtain ⟨h1, h2⟩ := delete_then_get_404 1 cexStore (by simp [cexStore]) rfl
  exact ⟨by rw [h1], h2⟩

end AccountService

namespace AccountService

/-- The deserialized account's data comes from the payload alone: every
supplied field value is taken verbatim, and an unsupplied phone_number
becomes null. -/
theorem deserialize_fields (kvs : List (String × Json)) (today : String) (d : AccountData)
    (hds : Account.deserialize (Json.obj kvs) today = Except.ok d) :
    (∀ v, jget kvs "name" = some v → d.name = v) ∧
    (∀ v, jget kvs "email" = some v → d.email = v) ∧
    (∀ v, jget kvs "address" = some v → d.address = v) ∧
    (∀ v, jget kvs "phone_number" = some v → d.phone_number = v) ∧
    (jget kvs "phone_number" = none → d.phone_number = Json.null) := by
  cases hjn : jget kvs "name" with
  | none => simp [Account.deserialize, hjn] at hds
  | some n =>
    cases hje : jget kvs "email" with
    | none => simp [Account.deserialize, hjn, hje] at hds
    | some e =>
      cases hja : jget kvs "address" with
      | none => simp [Account.deserialize, hjn, hje, hja] at hds
      | some a =>
        simp only [Account.deserialize, hjn, hje, hja, Except.ok.injEq] at hds
        subst hds
        refine ⟨?_, ?_, ?_, ?_, ?_⟩
        · intro v hv
          injection hv with h
        · intro v hv
          injection hv with h
        · intro v hv
          injection hv with h
        · intro v hv
          show (jget kvs "phone_number").getD Json.null = v
          rw [hv]
          rfl
        · intro hv
          show (jget kvs "phone_number").getD Json.null = Json.null
          rw [hv]
          rfl

/-- C8 counterexample: account 1 holds phone_number "555-1111"; a PUT whose
body supplies only the required fields succeeds with 200, yet the stored
phone_number becomes null instead of keeping its prior value. -/
theorem update_keeps_unsupplied_false :
    cexStore.find 1 = some cexAccount ∧
    cexAccount.phone_number = Json.str "555-1111" ∧
    (update_account (some "application/json") 1 requiredOnlyBody "2026-10-12"
      cexStore).1.status = 200 ∧
    ((update_account (some "application/json") 1 requiredOnlyBody "2026-10-12"
      cexStore).2.find 1).map AccountData.phone_number = some Json.null ∧
    ¬ ((update_account (some "application/json") 1 requiredOnlyBody "2026-10-12"
      cexStore).2.find 1).map AccountData.phone_number = some cexAccount.phone_number := by
  refine ⟨rfl, rfl, rfl, rfl, ?_⟩
  intro hcontra
  have h5 : (some Json.null : Option Json) = some (Json.str "555-1111") := hcontra
  simp at h5

/-- C8 (amended): a successful PUT answers 200 and re-persists the account
under its unchanged id, leaving nextId and every other id untouched;
supplied fields take the body's values, while an unsupplied phone_number is
reset to null rather than keeping its prior value. -/
theorem update_amended_frame (ct : Option String) (account_id : Nat)
    (kvs : List (String × Json)) (today : String) (s : Store) (d0 : AccountData)
    (hfind : s.find account_id = some d0) (d : AccountData)
    (hds : Account.deserialize (Json.obj kvs) today = Except.ok d) :
    (update_account ct account_id (Json.obj kvs) today s).1 =
      { status := 200, body := Body.jsonB (Account.serialize account_id d),
        location := none } ∧
    (update_account ct account_id (Json.obj kvs) today s).2.find account_id = some d ∧
    (update_account ct account_id (Json.obj kvs) today s).2.nextId = s.nextId ∧
    (∀ j, j ≠ account_id →
      (update_account ct account_id (Json.obj kvs) today s).2.find j = s.find j) ∧
    (∀ v, jget kvs "name" = some v → d.name = v) ∧
    (∀ v, jget kvs "email" = some v → d.email = v) ∧
    (∀ v, jget kvs "address" = some v → d.address = v) ∧
    (∀ v, jget kvs "phone_number" = some v → d.phone_number = v) ∧
    (jget kvs "phone_number" = none → d.phone_number = Json.null) := by
  obtain ⟨f1, f2, f3, f4, f5⟩ := deserialize_fields kvs today d hds
  have hstate : update_account ct account_id (Json.obj kvs) today s =
      ({ status := 200, body := Body.jsonB (Account.serialize account_id d),
         location := none }, s.update account_id d) := by
    simp [update_account, hfind, hds]
  refine ⟨by rw [hstate], ?_, by rw [hstate]; rfl, ?_, f1, f2, f3, f4, f5⟩
  · rw [hstate]
    exact findRow_updateRows_self s.rows account_id d0 d hfind
  · intro j hj
    rw [hstate]
    exact findRow_updateRows_other s.rows account_id j d hj

/-- C8 amended witness: the concrete PUT on id 1 answers 200, keeps nextId
at 2, and leaves the unknown id 5 unbound. -/
theorem update_amended_frame_witness :
    (update_account (some "application/json") 1 requiredOnlyBody "2026-10-12"
      cexStore).1.status = 200 ∧
    (update_account (some "application/json") 1 requiredOnlyBody "2026-10-12"
      cexStore).2.nextId = 2 ∧
    (update_account (some "application/json") 1 requiredOnlyBody "2026-10-12"
      cexStore).2.find 5 = none := by
  obtain ⟨h1, -, h3, h4, -⟩ :=
    update_amended_frame (some "application/json") 1
      [ ("name", Json.str "Alice"), ("email", Json.str "a@x.com")
      , ("address", Json.str "1 Main St") ]
      "2026-10-12" cexStore cexAccount rfl _ rfl
  refine ⟨?_, ?_, ?_⟩
  · simp only [requiredOnlyBody]
    rw [h1]
  · simp only [requiredOnlyBody]
    rw [h3]
    rfl
  · simp only [requiredOnlyBody]
    rw [h4 5 (by decide)]
    rfl

/-- C10: the update handler never consults the Content-Type header — any
two header values, including a missing one, process identically — and it
never answers 415. -/
theorem update_ignores_content_type (ct ct' : Option String) (account_id : Nat)
    (body : Json) (today : String) (s : Store) :
    update_account ct account_id body today s =
      update_account ct' account_id body today s ∧
    (update_account ct account_id body today s).1.status ≠ 415 := by
  refine ⟨rfl, ?_⟩
  cases hf : s.find account_id with
  | none => simp [update_account, hf, notFoundResponse]
  | some d0 =>
    cases hds : Account.deserialize body today with
    | ok d => simp [update_account, hf, hds]
    | error m => simp [update_account, hf, hds, badRequestResponse]

/-- C10 witness: a PUT sent as text/html and a PUT with no Content-Type
header produce identical results, and the concrete PUT answers 200. -/
theorem update_ignores_content_type_witness :
    update_account (some "text/html") 1 requiredOnlyBody "2026-10-12" cexStore =
      update_account none 1 requiredOnlyBody "2026-10-12" cexStore ∧
    (update_account (some "text/html") 1 requiredOnlyBody "2026-10-12"
      cexStore).1.status = 200 :=
  ⟨(update_ignores_content_type (some "text/html") none 1 requiredOnlyBody
      "2026-10-12" cexStore).1, rfl⟩

end AccountService
